import Mathlib

/-!
Shallow embedding of `src/DataValidator/DataValidator.py` (the validation
engine: `Issue`, `validate_dataframe`, `issues_to_df`).

Modelling conventions:
* A cell value is a tagged variant: the pandas missing sentinel (NaN),
  a scalar (int, float modelled as `Rat`, string, bool), or a one-level
  aggregate (Python list/dict/set/tuple, whose elements are scalars):
  aggregates only matter to the `string` type check (`isinstance` test)
  and value equality, where one level is faithful.
* A dataframe is an ordered column-name list and a list of rows; the index
  is the row position (as after `pd.read_csv`).
* Python value equality used by `df.duplicated` / `isin` identifies
  `True == 1 == 1.0` and (in `duplicated`) treats NaN as equal to NaN;
  `veq` below normalises numerics and booleans to `Rat` before comparing.
* `pd.to_numeric(errors="coerce")` is `toNumeric?` (decimal/exponent
  parser, surrounding whitespace allowed); `pd.to_datetime(errors="coerce")`
  is `parseableDatetime` (numbers are epoch values; strings succeed on an
  ISO `YYYY-MM-DD` shape; the claims below do not depend on the datetime
  grammar beyond its existence).
* Python truthiness of the optional list arguments (`if unique_key_cols:`)
  is `none` or `some []` both falsy.
-/

inductive Scalar where
  | i (n : Int)
  | r (q : Rat)
  | s (t : String)
  | b (v : Bool)
  deriving DecidableEq, Repr

inductive Value where
  | missing
  | sc (v : Scalar)
  | agg (elems : List Scalar)
  deriving DecidableEq, Repr

def Value.isMissing : Value → Bool
  | .missing => true
  | _ => false

def Value.isAgg : Value → Bool
  | .agg _ => true
  | _ => false

/-- Python cross-type equality on scalars: `True == 1 == 1.0`. -/
def Scalar.norm : Scalar → Scalar
  | .i n => .r (n : Rat)
  | .b v => .r (if v then 1 else 0)
  | x => x

def Value.norm : Value → Value
  | .missing => .missing
  | .sc v => .sc v.norm
  | .agg es => .agg (es.map Scalar.norm)

/-- Value equality as used by `df.duplicated` and `isin` (NaN equal to NaN,
numerics compared numerically across int/float/bool). -/
def veq (a b : Value) : Bool := decide (a.norm = b.norm)

def listVeq : List Value → List Value → Bool
  | [], [] => true
  | a :: as, b :: bs => veq a b && listVeq as bs
  | _, _ => false

def digitsVal (ds : List Char) : Nat :=
  ds.foldl (fun a c => a * 10 + (c.toNat - 48)) 0

/-- Decimal-number parser modelling `pd.to_numeric(errors="coerce")` on a
string: optional surrounding whitespace, optional sign, digits with an
optional fractional part, optional exponent. -/
def parseNum? (s : String) : Option Rat :=
  let cs := s.trim.data
  let (sgn, cs1) : Rat × List Char :=
    match cs with
    | '-' :: r => (-1, r)
    | '+' :: r => (1, r)
    | _ => (1, cs)
  let ip := cs1.takeWhile Char.isDigit
  let cs2 := cs1.dropWhile Char.isDigit
  let (fp, cs3) : List Char × List Char :=
    match cs2 with
    | '.' :: r => (r.takeWhile Char.isDigit, r.dropWhile Char.isDigit)
    | _ => ([], cs2)
  if ip.isEmpty && fp.isEmpty then none
  else
    let mant : Rat := sgn * ((digitsVal ip : Rat) + (digitsVal fp : Rat) / ((10 : Rat) ^ fp.length))
    match cs3 with
    | [] => some mant
    | c :: r =>
      if c = 'e' ∨ c = 'E' then
        let (eneg, r1) : Bool × List Char :=
          match r with
          | '-' :: rr => (true, rr)
          | '+' :: rr => (false, rr)
          | _ => (false, r)
        let ed := r1.takeWhile Char.isDigit
        let r2 := r1.dropWhile Char.isDigit
        if ed.isEmpty ∨ !r2.isEmpty then none
        else some (if eneg then mant / (10 : Rat) ^ digitsVal ed else mant * (10 : Rat) ^ digitsVal ed)
      else none

/-- `pd.to_numeric(errors="coerce")` on one cell: `none` is NaN. -/
def toNumeric? : Value → Option Rat
  | .missing => none
  | .sc (.i n) => some (n : Rat)
  | .sc (.r q) => some q
  | .sc (.b v) => some (if v then 1 else 0)
  | .sc (.s t) => parseNum? t
  | .agg _ => none

/-- Whether a trimmed string has the ISO `YYYY-MM-DD` date shape. -/
def isDateString (t : String) : Bool :=
  match t.trim.splitOn "-" with
  | [y, m, d] =>
    y.length = 4 && y.data.all Char.isDigit &&
    (m.length = 1 || m.length = 2) && m.data.all Char.isDigit &&
    (d.length = 1 || d.length = 2) && d.data.all Char.isDigit &&
    1 ≤ digitsVal m.data && digitsVal m.data ≤ 12 &&
    1 ≤ digitsVal d.data && digitsVal d.data ≤ 31
  | _ => false

/-- Whether `pd.to_datetime(errors="coerce")` succeeds on one cell
(numbers are epoch values, strings must look like a date). -/
def parseableDatetime : Value → Bool
  | .missing => false
  | .sc (.i _) => true
  | .sc (.r _) => true
  | .sc (.b _) => false
  | .sc (.s t) => isDateString t
  | .agg _ => false

def Scalar.pyStr : Scalar → String
  | .i n => toString n
  | .r q => toString q
  | .s t => t
  | .b true => "True"
  | .b false => "False"

def commaJoin : List String → String
  | [] => ""
  | [c] => c
  | c :: cs => c ++ "," ++ commaJoin cs

/-- `astype(str)` on one cell. -/
def Value.pyStr : Value → String
  | .missing => "nan"
  | .sc v => v.pyStr
  | .agg es => "[" ++ commaJoin (es.map Scalar.pyStr) ++ "]"

structure DataFrame where
  columns : List String
  rows : List (List Value)
  deriving DecidableEq, Repr

def DataFrame.nrows (df : DataFrame) : Nat := df.rows.length

def DataFrame.hasCol (df : DataFrame) (c : String) : Bool := decide (c ∈ df.columns)

def lookupCol : List String → List Value → String → Value
  | [], _, _ => Value.missing
  | _, [], _ => Value.missing
  | c' :: cs, v :: vs, c => if c' = c then v else lookupCol cs vs c

/-- `df.at[i, c]` for a positionally indexed dataframe. -/
def DataFrame.cell (df : DataFrame) (i : Nat) (c : String) : Value :=
  lookupCol df.columns (df.rows.getD i []) c

inductive IssueValue where
  | nullV
  | cellV (v : Value)
  | dictV (m : List (String × Value))
  deriving DecidableEq, Repr

structure Issue where
  row_index : Option Nat
  column : Option String
  issue : String
  value : IssueValue
  deriving DecidableEq, Repr

def missingRequiredColumnKind : String := "Missing required column"

def missingValueKind : String := "Missing value"

def missingKeyColumnKind : String := "Missing key column for duplicate check"

def duplicateKeyKind : String := "Duplicate key"

def duplicateRowKind : String := "Duplicate row (entire row)"

def typeMismatchKind (t : String) : String := "Type mismatch (expected " ++ t ++ ")"

def unknownTypeKind (t : String) : String := "Unknown expected type \x27" ++ t ++ "\x27"

def renderValue : Value → String := Value.pyStr

def renderValues (vs : List Value) : String := "[" ++ commaJoin (vs.map renderValue) ++ "]"

def belowMinKind (m : Rat) : String := "Value below min (" ++ toString m ++ ")"

def aboveMaxKind (m : Rat) : String := "Value above max (" ++ toString m ++ ")"

def notAllowedKind (allowed : List Value) : String :=
  "Value not allowed (allowed=" ++ renderValues allowed ++ ")"

def invalidEmailKind : String := "Invalid email (missing \x27@\x27)"

/-- Section 1 of `validate_dataframe`: required columns exist, then missing
values in the present required columns. -/
def requiredIssues (df : DataFrame) (required_cols : List String) : List Issue :=
  ((required_cols.filter fun c => !df.hasCol c).map fun c =>
    ⟨none, some c, missingRequiredColumnKind, .nullV⟩)
  ++ ((required_cols.filter df.hasCol).flatMap fun c =>
      ((List.range df.nrows).filter fun i => (df.cell i c).isMissing).map fun i =>
        ⟨some i, some c, missingValueKind, .nullV⟩)

/-- Projection of row `i` onto the listed columns. -/
def keyProj (df : DataFrame) (cols : List String) (i : Nat) : List Value :=
  cols.map (df.cell i)

/-- `df.duplicated(subset=cols, keep=False)` at row `i`: some other row has
the same projection. -/
def dupMask (df : DataFrame) (cols : List String) (i : Nat) : Bool :=
  (List.range df.nrows).any fun j =>
    j != i && listVeq (keyProj df cols j) (keyProj df cols i)

def wholeRowDupIssues (df : DataFrame) : List Issue :=
  ((List.range df.nrows).filter (dupMask df df.columns)).map fun i =>
    ⟨some i, none, duplicateRowKind, .nullV⟩

/-- Section 2 of `validate_dataframe`: duplicate check. `none` or `some []`
(Python falsy) selects whole-row mode. -/
def duplicateIssues (df : DataFrame) (unique_key_cols : Option (List String)) : List Issue :=
  match unique_key_cols with
  | none => wholeRowDupIssues df
  | some ks =>
    if ks.isEmpty then wholeRowDupIssues df
    else
      let key_cols := ks.filter df.hasCol
      ((ks.filter fun c => !df.hasCol c).map fun c =>
        ⟨none, some c, missingKeyColumnKind, .nullV⟩)
      ++ (if key_cols.isEmpty then []
          else ((List.range df.nrows).filter (dupMask df key_cols)).map fun i =>
            ⟨some i, some (commaJoin key_cols), duplicateKeyKind,
              .dictV (key_cols.map fun c => (c, df.cell i c))⟩)

/-- Type check for one `(column, type_name)` entry of `expected_types`. -/
def typeIssuesFor (df : DataFrame) (col : String) (tname : String) : List Issue :=
  if !df.hasCol col then []
  else
    let nm := (List.range df.nrows).filter fun i => !(df.cell i col).isMissing
    if tname = "int" ∨ tname = "float" then
      (nm.filter fun i => (toNumeric? (df.cell i col)).isNone).map fun i =>
        ⟨some i, some col, typeMismatchKind tname, .cellV (df.cell i col)⟩
    else if tname = "datetime" then
      (nm.filter fun i => !parseableDatetime (df.cell i col)).map fun i =>
        ⟨some i, some col, typeMismatchKind tname, .cellV (df.cell i col)⟩
    else if tname = "string" then
      (nm.filter fun i => (df.cell i col).isAgg).map fun i =>
        ⟨some i, some col, typeMismatchKind tname, .cellV (df.cell i col)⟩
    else
      [⟨none, some col, unknownTypeKind tname, .nullV⟩]

/-- Section 3 of `validate_dataframe`: type checks, in dict order. -/
def typeIssues (df : DataFrame) (expected_types : List (String × String)) : List Issue :=
  expected_types.flatMap fun p => typeIssuesFor df p.1 p.2

/-- Whether `pd.to_numeric(df[col])[i] < m` with NaN comparisons false
(`.fillna(False)`). -/
def belowBound (df : DataFrame) (col : String) (m : Rat) (i : Nat) : Bool :=
  match toNumeric? (df.cell i col) with
  | some q => decide (q < m)
  | none => false

def aboveBound (df : DataFrame) (col : String) (m : Rat) (i : Nat) : Bool :=
  match toNumeric? (df.cell i col) with
  | some q => decide (m < q)
  | none => false

/-- Range check for one `(column, (min, max))` entry of `ranges`. -/
def rangeIssuesFor (df : DataFrame) (col : String) (bounds : Option Rat × Option Rat) : List Issue :=
  if !df.hasCol col then []
  else
    (match bounds.1 with
     | some mn =>
       ((List.range df.nrows).filter (belowBound df col mn)).map fun i =>
         ⟨some i, some col, belowMinKind mn, .cellV (df.cell i col)⟩
     | none => [])
    ++ (match bounds.2 with
     | some mx =>
       ((List.range df.nrows).filter (aboveBound df col mx)).map fun i =>
         ⟨some i, some col, aboveMaxKind mx, .cellV (df.cell i col)⟩
     | none => [])

/-- Section 4 of `validate_dataframe`: range checks. -/
def rangeIssues (df : DataFrame) (ranges : List (String × (Option Rat × Option Rat))) : List Issue :=
  ranges.flatMap fun p => rangeIssuesFor df p.1 p.2

/-- Allowed-values check for one `(column, allowed)` entry. -/
def allowedIssuesFor (df : DataFrame) (col : String) (allowed : List Value) : List Issue :=
  if !df.hasCol col then []
  else
    ((List.range df.nrows).filter fun i =>
      !((allowed.any (veq (df.cell i col))) || (df.cell i col).isMissing)).map fun i =>
      ⟨some i, some col, notAllowedKind allowed, .cellV (df.cell i col)⟩

/-- Section 5 of `validate_dataframe`: allowed values. -/
def allowedIssues (df : DataFrame) (allowed_values : List (String × List Value)) : List Issue :=
  allowed_values.flatMap fun p => allowedIssuesFor df p.1 p.2

/-- Section 6 of `validate_dataframe`: email check; `none` or `some []`
(Python falsy) skips it. -/
def emailIssues (df : DataFrame) (email_cols : Option (List String)) : List Issue :=
  match email_cols with
  | none => []
  | some cols =>
    if cols.isEmpty then []
    else cols.flatMap fun col =>
      if !df.hasCol col then []
      else
        ((List.range df.nrows).filter fun i =>
          !(df.cell i col).isMissing && !((df.cell i col).pyStr.contains '@')).map fun i =>
          ⟨some i, some col, invalidEmailKind, .cellV (df.cell i col)⟩

structure Config where
  required_cols : List String
  expected_types : List (String × String)
  ranges : List (String × (Option Rat × Option Rat))
  allowed_values : List (String × List Value)
  unique_key_cols : Option (List String)
  email_cols : Option (List String)
  deriving Repr

structure Summary where
  rows : Nat
  cols : Nat
  total_issues : Nat
  issue_types : List (String × Nat)
  deriving DecidableEq, Repr

def dedupFirstAux : List String → List String → List String
  | _, [] => []
  | seen, s :: rest =>
    if s ∈ seen then dedupFirstAux seen rest
    else s :: dedupFirstAux (s :: seen) rest

/-- `pd.Series(kinds).value_counts().to_dict()` (as a kind → count map;
pandas orders by frequency, the map content is what matters here). -/
def issueTypeCounts (issues : List Issue) : List (String × Nat) :=
  if issues.isEmpty then []
  else
    let kinds := issues.map Issue.issue
    (dedupFirstAux [] kinds).map fun k => (k, kinds.count k)

/-- `validate_dataframe`: the six sections in source order, then the summary. -/
def validate_dataframe (df : DataFrame) (cfg : Config) : List Issue × Summary :=
  let issues :=
    requiredIssues df cfg.required_cols
    ++ duplicateIssues df cfg.unique_key_cols
    ++ typeIssues df cfg.expected_types
    ++ rangeIssues df cfg.ranges
    ++ allowedIssues df cfg.allowed_values
    ++ emailIssues df cfg.email_cols
  (issues, ⟨df.rows.length, df.columns.length, issues.length, issueTypeCounts issues⟩)

structure IssueTable where
  columns : List String
  rows : List (Option Nat × Option String × String × IssueValue)
  deriving DecidableEq, Repr

/-- `issues_to_df`: `pd.DataFrame(list-of-dicts)`; an empty list yields an
empty frame with no columns. -/
def issues_to_df (issues : List Issue) : IssueTable :=
  { columns := if issues.isEmpty then [] else ["row_index", "column", "issue", "value"],
    rows := issues.map fun i => (i.row_index, i.column, i.issue, i.value) }

/-! Helper lemmas about the embedding. -/

theorem veq_refl (v : Value) : veq v v = true := by simp [veq]

theorem veq_symm (a b : Value) : veq a b = veq b a := by
  simp [veq, eq_comm]

theorem listVeq_refl (l : List Value) : listVeq l l = true := by
  induction l with
  | nil => rfl
  | cons a as ih => simp [listVeq, veq_refl, ih]

theorem listVeq_symm (a b : List Value) : listVeq a b = listVeq b a := by
  induction a generalizing b with
  | nil => cases b <;> rfl
  | cons x xs ih =>
    cases b with
    | nil => rfl
    | cons y ys => simp [listVeq, veq_symm x y, ih ys]

def strStarts : List Char → List Char → Bool
  | [], _ => true
  | _ :: _, [] => false
  | p :: ps, c :: cs => p == c && strStarts ps cs

def hasKindStart (pre s : String) : Bool := strStarts pre.data s.data

def belowMinStart : String := "Value below min ("

def aboveMaxStart : String := "Value above max ("

def typeMismatchStart : String := "Type mismatch (expected "

theorem ne_of_head_char {s t : String} {a b : Char}
    (hs : s.data.head? = some a) (ht : t.data.head? = some b) (hab : a ≠ b) : s ≠ t := by
  intro h
  rw [h, ht] at hs
  exact hab (Option.some.inj hs).symm

theorem head_typeMismatchKind (t : String) : (typeMismatchKind t).data.head? = some 'T' := rfl

theorem head_unknownTypeKind (t : String) : (unknownTypeKind t).data.head? = some 'U' := rfl

theorem head_belowMinKind (m : Rat) : (belowMinKind m).data.head? = some 'V' := rfl

theorem head_aboveMaxKind (m : Rat) : (aboveMaxKind m).data.head? = some 'V' := rfl

theorem head_notAllowedKind (a : List Value) : (notAllowedKind a).data.head? = some 'V' := rfl

theorem typeMismatchKind_ne_dupKey (t : String) : typeMismatchKind t ≠ duplicateKeyKind :=
  ne_of_head_char (head_typeMismatchKind t) rfl (by decide)

theorem typeMismatchKind_ne_dupRow (t : String) : typeMismatchKind t ≠ duplicateRowKind :=
  ne_of_head_char (head_typeMismatchKind t) rfl (by decide)

theorem unknownTypeKind_ne_dupKey (t : String) : unknownTypeKind t ≠ duplicateKeyKind :=
  ne_of_head_char (head_unknownTypeKind t) rfl (by decide)

theorem unknownTypeKind_ne_dupRow (t : String) : unknownTypeKind t ≠ duplicateRowKind :=
  ne_of_head_char (head_unknownTypeKind t) rfl (by decide)

theorem belowMinKind_ne_dupKey (m : Rat) : belowMinKind m ≠ duplicateKeyKind :=
  ne_of_head_char (head_belowMinKind m) rfl (by decide)

theorem belowMinKind_ne_dupRow (m : Rat) : belowMinKind m ≠ duplicateRowKind :=
  ne_of_head_char (head_belowMinKind m) rfl (by decide)

theorem aboveMaxKind_ne_dupKey (m : Rat) : aboveMaxKind m ≠ duplicateKeyKind :=
  ne_of_head_char (head_aboveMaxKind m) rfl (by decide)

theorem aboveMaxKind_ne_dupRow (m : Rat) : aboveMaxKind m ≠ duplicateRowKind :=
  ne_of_head_char (head_aboveMaxKind m) rfl (by decide)

theorem notAllowedKind_ne_dupKey (a : List Value) : notAllowedKind a ≠ duplicateKeyKind :=
  ne_of_head_char (head_notAllowedKind a) rfl (by decide)

theorem notAllowedKind_ne_dupRow (a : List Value) : notAllowedKind a ≠ duplicateRowKind :=
  ne_of_head_char (head_notAllowedKind a) rfl (by decide)

/-- C1: for every dataset and rule configuration, `total_issues` in the
returned summary equals the number of Issue records in the returned list. -/
theorem total_issues_eq_issue_count (df : DataFrame) (cfg : Config) :
    (validate_dataframe df cfg).2.total_issues = (validate_dataframe df cfg).1.length := rfl

/-- C9 counterexample: on the empty issue list, `issues_to_df` returns a
table with no columns at all (`pd.DataFrame([])`), not the four columns
the claim promises for every issue list. -/
theorem issues_to_df_nil_has_no_columns :
    (issues_to_df []).columns.length ≠ 4 := by decide

/-- C9 amended: for every NON-EMPTY issue list, `issues_to_df` returns a
table with exactly the four columns `row_index, column, issue, value` in
that order, one row per Issue in insertion order, each row carrying the
issue's value field unflattened (a composite-key duplicate keeps its
key-column→value mapping). -/
theorem issues_to_df_shape (issues : List Issue) (h : issues ≠ []) :
    (issues_to_df issues).columns = ["row_index", "column", "issue", "value"] ∧
    (issues_to_df issues).rows =
      issues.map fun i => (i.row_index, i.column, i.issue, i.value) := by
  cases issues with
  | nil => exact absurd rfl h
  | cons a l => exact ⟨rfl, rfl⟩

def issuesW9 : List Issue :=
  [⟨some 0, some "a,b", duplicateKeyKind,
    .dictV [("a", .sc (.i 1)), ("b", .sc (.s "x"))]⟩,
   ⟨none, some "c", missingRequiredColumnKind, .nullV⟩]

/-- C9 witness: the amended shape theorem applied to a concrete non-empty
issue list containing a composite-key duplicate issue. -/
theorem issues_to_df_shape_witness :
    issuesW9 ≠ [] ∧
    ((issues_to_df issuesW9).columns = ["row_index", "column", "issue", "value"] ∧
     (issues_to_df issuesW9).rows =
       issuesW9.map fun i => (i.row_index, i.column, i.issue, i.value)) :=
  ⟨by decide, issues_to_df_shape issuesW9 (by decide)⟩

def emptyRuleConfig : Config := ⟨[], [], [], [], none, none⟩

def dfC2cex : DataFrame := ⟨["a"], [[.sc (.i 1)], [.sc (.i 1)]]⟩

/-- C2 counterexample: with the empty rule configuration, `unique_key_cols`
is `None`, so the WHOLE-ROW duplicate check still runs; on a non-empty
dataset whose two rows are identical it emits two issues, refuting
"empty issue list and total_issues = 0 for every non-empty dataset". -/
theorem empty_config_not_always_empty :
    dfC2cex.rows ≠ [] ∧
    ¬((validate_dataframe dfC2cex emptyRuleConfig).1 = [] ∧
      (validate_dataframe dfC2cex emptyRuleConfig).2.total_issues = 0) := by decide

/-- C2 amended: with the empty rule configuration, a non-empty dataset
yields no issues and `total_issues = 0` PROVIDED no two rows of the dataset
are equal across all columns (the whole-row duplicate check is the one rule
that still runs under the empty configuration). -/
theorem empty_config_no_issues (df : DataFrame) (hne : df.rows ≠ [])
    (hdist : ∀ i ∈ List.range df.nrows, ∀ j ∈ List.range df.nrows, i ≠ j →
      listVeq (keyProj df df.columns i) (keyProj df df.columns j) = false) :
    (validate_dataframe df emptyRuleConfig).1 = [] ∧
    (validate_dataframe df emptyRuleConfig).2.total_issues = 0 := by
  have hdup : duplicateIssues df none = [] := by
    unfold duplicateIssues wholeRowDupIssues
    rw [List.filter_eq_nil_iff.mpr, List.map_nil]
    intro i hi hmask
    rw [dupMask, List.any_eq_true] at hmask
    obtain ⟨j, hj, hP⟩ := hmask
    rw [Bool.and_eq_true, bne_iff_ne] at hP
    have := hdist j hj i hi hP.1
    rw [hP.2] at this
    cases this
  have hiss : (validate_dataframe df emptyRuleConfig).1 = [] := by
    simp [validate_dataframe, emptyRuleConfig, requiredIssues, typeIssues,
      rangeIssues, allowedIssues, emailIssues, hdup]
  refine ⟨hiss, ?_⟩
  have : (validate_dataframe df emptyRuleConfig).2.total_issues =
      (validate_dataframe df emptyRuleConfig).1.length := rfl
  rw [this, hiss, List.length_nil]

def dfC2w : DataFrame := ⟨["a"], [[.sc (.i 1)], [.sc (.i 2)]]⟩

/-- C2 witness: the amended theorem at a concrete dataset with distinct rows. -/
theorem empty_config_no_issues_witness :
    dfC2w.rows ≠ [] ∧
    ((validate_dataframe dfC2w emptyRuleConfig).1 = [] ∧
     (validate_dataframe dfC2w emptyRuleConfig).2.total_issues = 0) :=
  ⟨by decide, empty_config_no_issues dfC2w (by decide) (by decide)⟩

/-! Classification of the issue kinds each evaluator can emit. -/

theorem requiredIssues_kinds {df : DataFrame} {rc : List String} :
    ∀ iss ∈ requiredIssues df rc,
      iss.issue = missingRequiredColumnKind ∨ iss.issue = missingValueKind := by
  intro iss h
  rw [requiredIssues, List.mem_append] at h
  rcases h with h | h
  · obtain ⟨c, _, rfl⟩ := List.mem_map.mp h
    exact Or.inl rfl
  · obtain ⟨c, _, hm⟩ := List.mem_flatMap.mp h
    obtain ⟨i, _, rfl⟩ := List.mem_map.mp hm
    exact Or.inr rfl

theorem duplicateIssues_kinds {df : DataFrame} {o : Option (List String)} :
    ∀ iss ∈ duplicateIssues df o,
      iss.issue = missingKeyColumnKind ∨ iss.issue = duplicateKeyKind ∨
      iss.issue = duplicateRowKind := by
  intro iss h
  have hwr : ∀ iss ∈ wholeRowDupIssues df, iss.issue = duplicateRowKind := by
    intro iss h
    obtain ⟨i, _, rfl⟩ := List.mem_map.mp h
    rfl
  match o with
  | none => exact Or.inr (Or.inr (hwr iss h))
  | some ks =>
    rw [duplicateIssues] at h
    by_cases hke : ks.isEmpty
    · rw [if_pos hke] at h
      exact Or.inr (Or.inr (hwr iss h))
    · rw [if_neg hke, List.mem_append] at h
      rcases h with h | h
      · obtain ⟨c, _, rfl⟩ := List.mem_map.mp h
        exact Or.inl rfl
      · by_cases hkc : (ks.filter df.hasCol).isEmpty
        · rw [if_pos hkc] at h
          cases h
        · rw [if_neg hkc] at h
          obtain ⟨i, _, rfl⟩ := List.mem_map.mp h
          exact Or.inr (Or.inl rfl)

theorem typeIssuesFor_shape {df : DataFrame} {col t : String} :
    ∀ iss ∈ typeIssuesFor df col t,
      df.hasCol col = true ∧ iss.column = some col ∧
      (iss.issue = typeMismatchKind t ∨ iss.issue = unknownTypeKind t) := by
  intro iss h
  rw [typeIssuesFor] at h
  by_cases hc : df.hasCol col
  · rw [if_neg (by simp [hc])] at h
    by_cases h1 : t = "int" ∨ t = "float"
    · rw [if_pos h1] at h
      obtain ⟨i, _, rfl⟩ := List.mem_map.mp h
      exact ⟨hc, rfl, Or.inl rfl⟩
    · rw [if_neg h1] at h
      by_cases h2 : t = "datetime"
      · rw [if_pos h2] at h
        obtain ⟨i, _, rfl⟩ := List.mem_map.mp h
        exact ⟨hc, rfl, Or.inl rfl⟩
      · rw [if_neg h2] at h
        by_cases h3 : t = "string"
        · rw [if_pos h3] at h
          obtain ⟨i, _, rfl⟩ := List.mem_map.mp h
          exact ⟨hc, rfl, Or.inl rfl⟩
        · rw [if_neg h3] at h
          rcases List.mem_singleton.mp h with rfl
          exact ⟨hc, rfl, Or.inr rfl⟩
  · rw [if_pos (by simp [hc])] at h
    cases h

theorem typeIssues_shape {df : DataFrame} {et : List (String × String)} :
    ∀ iss ∈ typeIssues df et,
      ∃ p ∈ et, df.hasCol p.1 = true ∧ iss.column = some p.1 ∧
        (iss.issue = typeMismatchKind p.2 ∨ iss.issue = unknownTypeKind p.2) := by
  intro iss h
  obtain ⟨p, hp, hm⟩ := List.mem_flatMap.mp h
  exact ⟨p, hp, typeIssuesFor_shape iss hm⟩

theorem rangeIssuesFor_shape {df : DataFrame} {col : String}
    {bounds : Option Rat × Option Rat} :
    ∀ iss ∈ rangeIssuesFor df col bounds,
      df.hasCol col = true ∧ iss.column = some col ∧
      (∃ i q, iss.row_index = some i ∧ toNumeric? (df.cell i col) = some q) ∧
      ((∃ m, iss.issue = belowMinKind m) ∨ (∃ m, iss.issue = aboveMaxKind m)) := by
  intro iss h
  rw [rangeIssuesFor] at h
  by_cases hc : df.hasCol col
  · rw [if_neg (by simp [hc]), List.mem_append] at h
    rcases h with h | h
    · match hb : bounds.1 with
      | none => rw [hb] at h; cases h
      | some mn =>
        rw [hb] at h
        obtain ⟨i, hi, rfl⟩ := List.mem_map.mp h
        have hbb := (List.mem_filter.mp hi).2
        rw [belowBound] at hbb
        refine ⟨hc, rfl, ⟨i, ?_⟩, Or.inl ⟨mn, rfl⟩⟩
        match hq : toNumeric? (df.cell i col) with
        | some q => exact ⟨q, rfl, rfl⟩
        | none => rw [hq] at hbb; cases hbb
    · match hb : bounds.2 with
      | none => rw [hb] at h; cases h
      | some mx =>
        rw [hb] at h
        obtain ⟨i, hi, rfl⟩ := List.mem_map.mp h
        have hbb := (List.mem_filter.mp hi).2
        rw [aboveBound] at hbb
        refine ⟨hc, rfl, ⟨i, ?_⟩, Or.inr ⟨mx, rfl⟩⟩
        match hq : toNumeric? (df.cell i col) with
        | some q => exact ⟨q, rfl, rfl⟩
        | none => rw [hq] at hbb; cases hbb
  · rw [if_pos (by simp [hc])] at h
    cases h

theorem rangeIssues_shape {df : DataFrame} {rs : List (String × (Option Rat × Option Rat))} :
    ∀ iss ∈ rangeIssues df rs,
      ∃ p ∈ rs, df.hasCol p.1 = true ∧ iss.column = some p.1 ∧
        (∃ i q, iss.row_index = some i ∧ toNumeric? (df.cell i p.1) = some q) ∧
        ((∃ m, iss.issue = belowMinKind m) ∨ (∃ m, iss.issue = aboveMaxKind m)) := by
  intro iss h
  obtain ⟨p, hp, hm⟩ := List.mem_flatMap.mp h
  exact ⟨p, hp, rangeIssuesFor_shape iss hm⟩

theorem allowedIssues_shape {df : DataFrame} {av : List (String × List Value)} :
    ∀ iss ∈ allowedIssues df av,
      ∃ p ∈ av, df.hasCol p.1 = true ∧ iss.column = some p.1 ∧
        iss.issue = notAllowedKind p.2 := by
  intro iss h
  obtain ⟨p, hp, hm⟩ := List.mem_flatMap.mp h
  rw [allowedIssuesFor] at hm
  by_cases hc : df.hasCol p.1
  · rw [if_neg (by simp [hc])] at hm
    obtain ⟨i, _, rfl⟩ := List.mem_map.mp hm
    exact ⟨p, hp, hc, rfl, rfl⟩
  · rw [if_pos (by simp [hc])] at hm
    cases hm

theorem emailIssues_shape {df : DataFrame} {ec : Option (List String)} :
    ∀ iss ∈ emailIssues df ec,
      ∃ col, df.hasCol col = true ∧ iss.column = some col ∧
        iss.issue = invalidEmailKind := by
  intro iss h
  match ec with
  | none => cases h
  | some cols =>
    rw [emailIssues] at h
    by_cases hke : cols.isEmpty
    · rw [if_pos hke] at h
      cases h
    · rw [if_neg hke] at h
      obtain ⟨col, _, hm⟩ := List.mem_flatMap.mp h
      by_cases hc : df.hasCol col
      · rw [if_neg (by simp [hc])] at hm
        obtain ⟨i, _, rfl⟩ := List.mem_map.mp hm
        exact ⟨col, hc, rfl, rfl⟩
      · rw [if_pos (by simp [hc])] at hm
        cases hm

theorem kindStart_below_typeMismatch (t : String) :
    hasKindStart belowMinStart (typeMismatchKind t) = false := rfl

theorem kindStart_above_typeMismatch (t : String) :
    hasKindStart aboveMaxStart (typeMismatchKind t) = false := rfl

theorem kindStart_below_unknownType (t : String) :
    hasKindStart belowMinStart (unknownTypeKind t) = false := rfl

theorem kindStart_above_unknownType (t : String) :
    hasKindStart aboveMaxStart (unknownTypeKind t) = false := rfl

theorem kindStart_below_notAllowed (a : List Value) :
    hasKindStart belowMinStart (notAllowedKind a) = false := rfl

theorem kindStart_above_notAllowed (a : List Value) :
    hasKindStart aboveMaxStart (notAllowedKind a) = false := rfl

/-- C5: no issue in the output whose kind is a below-min or above-max range
violation can concern a cell whose value fails numeric coercion: every such
issue is row-level, names a column, and that row's cell in that column
coerces to a number (missing-sentinel cells coerce to nothing, so they are
covered too). -/
theorem range_issue_needs_numeric (df : DataFrame) (cfg : Config) (iss : Issue)
    (hmem : iss ∈ (validate_dataframe df cfg).1)
    (hkind : (hasKindStart belowMinStart iss.issue ||
              hasKindStart aboveMaxStart iss.issue) = true) :
    ∃ i c q, iss.row_index = some i ∧ iss.column = some c ∧
      toNumeric? (df.cell i c) = some q := by
  rw [validate_dataframe] at hmem
  simp only [List.mem_append] at hmem
  rcases hmem with ((((hm | hm) | hm) | hm) | hm) | hm
  · rcases requiredIssues_kinds iss hm with hk | hk <;>
      (rw [hk] at hkind; exact absurd hkind (by decide))
  · rcases duplicateIssues_kinds iss hm with hk | hk | hk <;>
      (rw [hk] at hkind; exact absurd hkind (by decide))
  · obtain ⟨p, _, _, _, hk⟩ := typeIssues_shape iss hm
    rcases hk with hk | hk <;> rw [hk] at hkind
    · rw [kindStart_below_typeMismatch, kindStart_above_typeMismatch] at hkind
      cases hkind
    · rw [kindStart_below_unknownType, kindStart_above_unknownType] at hkind
      cases hkind
  · obtain ⟨p, _, _, hcolumn, ⟨i, q, hrow, hq⟩, _⟩ := rangeIssues_shape iss hm
    exact ⟨i, p.1, q, hrow, hcolumn, hq⟩
  · obtain ⟨p, _, _, _, hk⟩ := allowedIssues_shape iss hm
    rw [hk, kindStart_below_notAllowed, kindStart_above_notAllowed] at hkind
    cases hkind
  · obtain ⟨col, _, _, hk⟩ := emailIssues_shape iss hm
    rw [hk] at hkind
    exact absurd hkind (by decide)

def dfC5w : DataFrame := ⟨["age"], [[.sc (.i (-5))], [.sc (.s "abc")]]⟩

def cfgC5w : Config := ⟨[], [], [("age", (some 0, some 120))], [], none, none⟩

def issC5w : Issue := ⟨some 0, some "age", belowMinKind 0, .cellV (.sc (.i (-5)))⟩

/-- C5 witness: the theorem applied to a concrete below-min issue of a
concrete run (the same run's non-numeric cell "abc" yields no range issue). -/
theorem range_issue_needs_numeric_witness :
    issC5w ∈ (validate_dataframe dfC5w cfgC5w).1 ∧
    (hasKindStart belowMinStart issC5w.issue ||
     hasKindStart aboveMaxStart issC5w.issue) = true ∧
    (∃ i c q, issC5w.row_index = some i ∧ issC5w.column = some c ∧
      toNumeric? (dfC5w.cell i c) = some q) :=
  ⟨by decide, by decide,
   range_issue_needs_numeric dfC5w cfgC5w issC5w (by decide) (by decide)⟩

theorem mem_validate_of_mem_range {df : DataFrame} {cfg : Config} {iss : Issue}
    (h : iss ∈ rangeIssues df cfg.ranges) : iss ∈ (validate_dataframe df cfg).1 := by
  rw [validate_dataframe]
  simp only [List.mem_append]
  exact Or.inl (Or.inl (Or.inr h))

/-- C6: a range rule whose two bounds satisfy max < min is evaluated bound
by bound: a numeric cell value q with q < min and max < q produces BOTH the
below-min issue and the above-max issue for the same row and column in the
same run. -/
theorem both_bounds_fire (df : DataFrame) (cfg : Config) (col : String)
    (mn mx : Rat) (i : Nat) (q : Rat)
    (hr : (col, (some mn, some mx)) ∈ cfg.ranges)
    (hcol : df.hasCol col = true)
    (hi : i < df.nrows)
    (hq : toNumeric? (df.cell i col) = some q)
    (hlt : q < mn) (hgt : mx < q) :
    (⟨some i, some col, belowMinKind mn, .cellV (df.cell i col)⟩ : Issue) ∈
      (validate_dataframe df cfg).1 ∧
    (⟨some i, some col, aboveMaxKind mx, .cellV (df.cell i col)⟩ : Issue) ∈
      (validate_dataframe df cfg).1 := by
  have hfor : ∀ w : Issue, w ∈ rangeIssuesFor df col (some mn, some mx) →
      w ∈ (validate_dataframe df cfg).1 := by
    intro w hw
    exact mem_validate_of_mem_range
      (List.mem_flatMap.mpr ⟨(col, (some mn, some mx)), hr, hw⟩)
  constructor
  · apply hfor
    rw [rangeIssuesFor, if_neg (by simp [hcol]), List.mem_append]
    refine Or.inl (List.mem_map.mpr ⟨i, List.mem_filter.mpr ⟨List.mem_range.mpr hi, ?_⟩, rfl⟩)
    rw [belowBound, hq]
    exact decide_eq_true hlt
  · apply hfor
    rw [rangeIssuesFor, if_neg (by simp [hcol]), List.mem_append]
    refine Or.inr (List.mem_map.mpr ⟨i, List.mem_filter.mpr ⟨List.mem_range.mpr hi, ?_⟩, rfl⟩)
    rw [aboveBound, hq]
    exact decide_eq_true hgt

def dfC6w : DataFrame := ⟨["x"], [[.sc (.i 5)]]⟩

def cfgC6w : Config := ⟨[], [], [("x", (some 10, some 0))], [], none, none⟩

/-- C6 witness: the theorem at the rule min=10, max=0 and the value 5. -/
theorem both_bounds_fire_witness :
    toNumeric? (dfC6w.cell 0 "x") = some 5 ∧ (5 : Rat) < 10 ∧ (0 : Rat) < 5 ∧
    ((⟨some 0, some "x", belowMinKind 10, .cellV (dfC6w.cell 0 "x")⟩ : Issue) ∈
       (validate_dataframe dfC6w cfgC6w).1 ∧
     (⟨some 0, some "x", aboveMaxKind 0, .cellV (dfC6w.cell 0 "x")⟩ : Issue) ∈
       (validate_dataframe dfC6w cfgC6w).1) :=
  ⟨by decide, by decide, by decide,
   both_bounds_fire dfC6w cfgC6w "x" 10 0 0 5 (by decide) (by decide) (by decide)
     (by decide) (by decide) (by decide)⟩

theorem mem_validate_of_mem_dup {df : DataFrame} {cfg : Config} {iss : Issue}
    (h : iss ∈ duplicateIssues df cfg.unique_key_cols) :
    iss ∈ (validate_dataframe df cfg).1 := by
  rw [validate_dataframe]
  simp only [List.mem_append]
  exact Or.inl (Or.inl (Or.inl (Or.inl (Or.inr h))))

theorem filter_ne_nil_ks {df : DataFrame} {ks : List String}
    (h : ks.filter df.hasCol ≠ []) : ks.isEmpty = false := by
  cases ks with
  | nil => exact absurd rfl h
  | cons a l => rfl

/-- C4: in keyed duplicate mode, two distinct rows whose projections onto
the present key columns are equal under the dataset's value equality (under
which the missing sentinel equals the missing sentinel) each contribute
their duplicate-key issue to the output. -/
theorem equal_keys_both_flagged (df : DataFrame) (cfg : Config) (ks : List String)
    (i j : Nat)
    (hk : cfg.unique_key_cols = some ks)
    (hkc : ks.filter df.hasCol ≠ [])
    (hi : i < df.nrows) (hj : j < df.nrows) (hij : i ≠ j)
    (heq : listVeq (keyProj df (ks.filter df.hasCol) i)
                   (keyProj df (ks.filter df.hasCol) j) = true) :
    (⟨some i, some (commaJoin (ks.filter df.hasCol)), duplicateKeyKind,
       .dictV ((ks.filter df.hasCol).map fun c => (c, df.cell i c))⟩ : Issue) ∈
      (validate_dataframe df cfg).1 ∧
    (⟨some j, some (commaJoin (ks.filter df.hasCol)), duplicateKeyKind,
       .dictV ((ks.filter df.hasCol).map fun c => (c, df.cell j c))⟩ : Issue) ∈
      (validate_dataframe df cfg).1 := by
  have hmem : ∀ x y : Nat, x < df.nrows → y < df.nrows → y ≠ x →
      listVeq (keyProj df (ks.filter df.hasCol) y)
              (keyProj df (ks.filter df.hasCol) x) = true →
      (⟨some x, some (commaJoin (ks.filter df.hasCol)), duplicateKeyKind,
         .dictV ((ks.filter df.hasCol).map fun c => (c, df.cell x c))⟩ : Issue) ∈
        (validate_dataframe df cfg).1 := by
    intro x y hx hy hyx hxyeq
    apply mem_validate_of_mem_dup
    rw [hk, duplicateIssues, if_neg (by simp [filter_ne_nil_ks hkc])]
    rw [List.mem_append]
    refine Or.inr ?_
    rw [if_neg (by simp [List.isEmpty_iff, hkc])]
    refine List.mem_map.mpr ⟨x, List.mem_filter.mpr ⟨List.mem_range.mpr hx, ?_⟩, rfl⟩
    rw [dupMask, List.any_eq_true]
    exact ⟨y, List.mem_range.mpr hy, by rw [Bool.and_eq_true, bne_iff_ne]; exact ⟨hyx, hxyeq⟩⟩
  constructor
  · exact hmem i j hi hj (Ne.symm hij) (by rw [listVeq_symm]; exact heq)
  · exact hmem j i hj hi hij heq

def dfC4w : DataFrame :=
  ⟨["k", "v", "w"],
   [[.missing, .sc (.i 1), .sc (.s "p")],
    [.missing, .sc (.i 1), .sc (.s "q")],
    [.sc (.i 7), .sc (.i 1), .sc (.s "r")]]⟩

def cfgC4w : Config := ⟨[], [], [], [], some ["k", "v", "zz"], none⟩

/-- C4 witness: rows 0 and 1 are both missing in key column "k" and equal
in key column "v" (listed key "zz" is absent, hence ignored); the theorem
puts both duplicate-key issues in the output. -/
theorem equal_keys_both_flagged_witness :
    listVeq (keyProj dfC4w (["k", "v", "zz"].filter dfC4w.hasCol) 0)
            (keyProj dfC4w (["k", "v", "zz"].filter dfC4w.hasCol) 1) = true ∧
    ((⟨some 0, some (commaJoin (["k", "v", "zz"].filter dfC4w.hasCol)), duplicateKeyKind,
        .dictV ((["k", "v", "zz"].filter dfC4w.hasCol).map fun c => (c, dfC4w.cell 0 c))⟩ : Issue) ∈
       (validate_dataframe dfC4w cfgC4w).1 ∧
     (⟨some 1, some (commaJoin (["k", "v", "zz"].filter dfC4w.hasCol)), duplicateKeyKind,
        .dictV ((["k", "v", "zz"].filter dfC4w.hasCol).map fun c => (c, dfC4w.cell 1 c))⟩ : Issue) ∈
       (validate_dataframe dfC4w cfgC4w).1) :=
  ⟨by decide,
   equal_keys_both_flagged dfC4w cfgC4w ["k", "v", "zz"] 0 1 rfl (by decide)
     (by decide) (by decide) (by decide) (by decide)⟩

/-- Size of the equality-partition block of row `i` when rows are grouped
by their projection onto `cols` (the row itself counts). -/
def eqGroupSize (df : DataFrame) (cols : List String) (i : Nat) : Nat :=
  ((List.range df.nrows).filter fun j =>
    listVeq (keyProj df cols j) (keyProj df cols i)).length

def isDupKeyIssueAt (i : Nat) (iss : Issue) : Bool :=
  decide (iss.issue = duplicateKeyKind ∧ iss.row_index = some i)

def isDupRowIssueAt (i : Nat) (iss : Issue) : Bool :=
  decide (iss.issue = duplicateRowKind ∧ iss.row_index = some i)

def isDupKindIssue (iss : Issue) : Bool :=
  decide (iss.issue = duplicateKeyKind ∨ iss.issue = duplicateRowKind)

theorem requiredIssues_no_dupkind {df : DataFrame} {rc : List String} :
    ∀ iss ∈ requiredIssues df rc,
      iss.issue ≠ duplicateKeyKind ∧ iss.issue ≠ duplicateRowKind := by
  intro iss h
  rcases requiredIssues_kinds iss h with hk | hk <;> rw [hk] <;> exact ⟨by decide, by decide⟩

theorem typeIssues_no_dupkind {df : DataFrame} {et : List (String × String)} :
    ∀ iss ∈ typeIssues df et,
      iss.issue ≠ duplicateKeyKind ∧ iss.issue ≠ duplicateRowKind := by
  intro iss h
  obtain ⟨p, _, _, _, hk⟩ := typeIssues_shape iss h
  rcases hk with hk | hk <;> rw [hk]
  · exact ⟨typeMismatchKind_ne_dupKey p.2, typeMismatchKind_ne_dupRow p.2⟩
  · exact ⟨unknownTypeKind_ne_dupKey p.2, unknownTypeKind_ne_dupRow p.2⟩

theorem rangeIssues_no_dupkind {df : DataFrame} {rs : List (String × (Option Rat × Option Rat))} :
    ∀ iss ∈ rangeIssues df rs,
      iss.issue ≠ duplicateKeyKind ∧ iss.issue ≠ duplicateRowKind := by
  intro iss h
  obtain ⟨p, _, _, _, _, hk⟩ := rangeIssues_shape iss h
  rcases hk with ⟨m, hk⟩ | ⟨m, hk⟩ <;> rw [hk]
  · exact ⟨belowMinKind_ne_dupKey m, belowMinKind_ne_dupRow m⟩
  · exact ⟨aboveMaxKind_ne_dupKey m, aboveMaxKind_ne_dupRow m⟩

theorem allowedIssues_no_dupkind {df : DataFrame} {av : List (String × List Value)} :
    ∀ iss ∈ allowedIssues df av,
      iss.issue ≠ duplicateKeyKind ∧ iss.issue ≠ duplicateRowKind := by
  intro iss h
  obtain ⟨p, _, _, _, hk⟩ := allowedIssues_shape iss h
  rw [hk]
  exact ⟨notAllowedKind_ne_dupKey p.2, notAllowedKind_ne_dupRow p.2⟩

theorem emailIssues_no_dupkind {df : DataFrame} {ec : Option (List String)} :
    ∀ iss ∈ emailIssues df ec,
      iss.issue ≠ duplicateKeyKind ∧ iss.issue ≠ duplicateRowKind := by
  intro iss h
  obtain ⟨col, _, _, hk⟩ := emailIssues_shape iss h
  rw [hk]
  exact ⟨by decide, by decide⟩

theorem countP_zero_of_dup_pred {l : List Issue} {p : Issue → Bool}
    (hl : ∀ iss ∈ l, iss.issue ≠ duplicateKeyKind ∧ iss.issue ≠ duplicateRowKind)
    (hp : ∀ iss, p iss = true →
      iss.issue = duplicateKeyKind ∨ iss.issue = duplicateRowKind) :
    l.countP p = 0 := by
  rw [List.countP_eq_zero]
  intro a ha hpa
  rcases hp a hpa with hk | hk
  · exact (hl a ha).1 hk
  · exact (hl a ha).2 hk

theorem two_le_length_of_mem_ne {α : Type} {l : List α} {a b : α}
    (ha : a ∈ l) (hb : b ∈ l) (hab : a ≠ b) : 2 ≤ l.length := by
  cases l with
  | nil => cases ha
  | cons x xs =>
    cases xs with
    | nil =>
      rw [List.mem_singleton] at ha hb
      exact absurd (ha.trans hb.symm) hab
    | cons y ys => simp only [List.length_cons]; omega

theorem exists_ne_of_nodup_two_le {α : Type} {l : List α} (hn : l.Nodup)
    (h2 : 2 ≤ l.length) (a : α) : ∃ b ∈ l, b ≠ a := by
  cases l with
  | nil => simp at h2
  | cons x xs =>
    cases xs with
    | nil => simp at h2
    | cons y ys =>
      by_cases hx : x = a
      · refine ⟨y, by simp, ?_⟩
        intro hya
        rw [List.nodup_cons] at hn
        exact hn.1 (by rw [hx, ← hya]; exact List.mem_cons_self y ys)
      · exact ⟨x, by simp, hx⟩

theorem dupMask_iff_two_le_groupSize (df : DataFrame) (cols : List String) (i : Nat)
    (hi : i < df.nrows) : dupMask df cols i = true ↔ 2 ≤ eqGroupSize df cols i := by
  have hnd : ((List.range df.nrows).filter fun j =>
      listVeq (keyProj df cols j) (keyProj df cols i)).Nodup :=
    (List.nodup_range df.nrows).filter _
  have hiF : i ∈ (List.range df.nrows).filter fun j =>
      listVeq (keyProj df cols j) (keyProj df cols i) :=
    List.mem_filter.mpr ⟨List.mem_range.mpr hi, listVeq_refl _⟩
  constructor
  · intro hm
    rw [dupMask, List.any_eq_true] at hm
    obtain ⟨j, hj, hP⟩ := hm
    rw [Bool.and_eq_true, bne_iff_ne] at hP
    have hjF : j ∈ (List.range df.nrows).filter fun j =>
        listVeq (keyProj df cols j) (keyProj df cols i) :=
      List.mem_filter.mpr ⟨hj, hP.2⟩
    exact two_le_length_of_mem_ne hjF hiF hP.1
  · intro h2
    obtain ⟨j, hjF, hji⟩ := exists_ne_of_nodup_two_le hnd h2 i
    have hj := List.mem_filter.mp hjF
    rw [dupMask, List.any_eq_true]
    exact ⟨j, hj.1, by rw [Bool.and_eq_true, bne_iff_ne]; exact ⟨hji, hj.2⟩⟩

theorem countP_decide_eq_nodup {l : List Nat} (hn : l.Nodup) (i : Nat) :
    l.countP (fun x => decide (x = i)) = if i ∈ l then 1 else 0 := by
  induction l with
  | nil => simp
  | cons x xs ih =>
    rw [List.nodup_cons] at hn
    rw [List.countP_cons]
    by_cases hx : x = i
    · subst hx
      rw [if_pos (List.mem_cons_self x xs)]
      have : x ∉ xs := hn.1
      rw [ih hn.2, if_neg this]
      simp
    · have hix : i ≠ x := fun h => hx h.symm
      rw [ih hn.2]
      simp [List.mem_cons, hix, hx]

theorem dupSection_keyed_count (df : DataFrame) (ks : List String) (i : Nat)
    (hi : i < df.nrows) (hkc : ks.filter df.hasCol ≠ []) :
    (duplicateIssues df (some ks)).countP (isDupKeyIssueAt i) =
      if 2 ≤ eqGroupSize df (ks.filter df.hasCol) i then 1 else 0 := by
  rw [duplicateIssues, if_neg (by simp [filter_ne_nil_ks hkc])]
  rw [List.countP_append]
  have h1 : ((ks.filter fun c => !df.hasCol c).map fun c =>
      (⟨none, some c, missingKeyColumnKind, .nullV⟩ : Issue)).countP (isDupKeyIssueAt i) = 0 := by
    rw [List.countP_eq_zero]
    intro a ha
    obtain ⟨c, _, rfl⟩ := List.mem_map.mp ha
    simp [isDupKeyIssueAt]
  rw [h1, if_neg (by simp [List.isEmpty_iff, hkc]), List.countP_map]
  have h2 : (isDupKeyIssueAt i ∘ fun x : Nat =>
      (⟨some x, some (commaJoin (ks.filter df.hasCol)), duplicateKeyKind,
        .dictV ((ks.filter df.hasCol).map fun c => (c, df.cell x c))⟩ : Issue)) =
      fun x => decide (x = i) := by
    funext x
    rw [Function.comp_apply, isDupKeyIssueAt, decide_eq_decide]
    simp
  rw [h2, countP_decide_eq_nodup ((List.nodup_range df.nrows).filter _) i]
  have h3 : (i ∈ (List.range df.nrows).filter (dupMask df (ks.filter df.hasCol))) ↔
      2 ≤ eqGroupSize df (ks.filter df.hasCol) i := by
    rw [List.mem_filter]
    constructor
    · intro h
      exact (dupMask_iff_two_le_groupSize df (ks.filter df.hasCol) i hi).mp h.2
    · intro h2le
      exact ⟨List.mem_range.mpr hi,
        (dupMask_iff_two_le_groupSize df (ks.filter df.hasCol) i hi).mpr h2le⟩
  rw [Nat.zero_add, if_congr h3 rfl rfl]

theorem dupSection_wholerow_count (df : DataFrame) (i : Nat) (hi : i < df.nrows) :
    (wholeRowDupIssues df).countP (isDupRowIssueAt i) =
      if 2 ≤ eqGroupSize df df.columns i then 1 else 0 := by
  rw [wholeRowDupIssues, List.countP_map]
  have h2 : (isDupRowIssueAt i ∘ fun x : Nat =>
      (⟨some x, none, duplicateRowKind, .nullV⟩ : Issue)) = fun x => decide (x = i) := by
    funext x
    rw [Function.comp_apply, isDupRowIssueAt, decide_eq_decide]
    simp
  rw [h2, countP_decide_eq_nodup ((List.nodup_range df.nrows).filter _) i]
  have h3 : (i ∈ (List.range df.nrows).filter (dupMask df df.columns)) ↔
      2 ≤ eqGroupSize df df.columns i := by
    rw [List.mem_filter]
    constructor
    · intro h
      exact (dupMask_iff_two_le_groupSize df df.columns i hi).mp h.2
    · intro h2le
      exact ⟨List.mem_range.mpr hi,
        (dupMask_iff_two_le_groupSize df df.columns i hi).mpr h2le⟩
  rw [if_congr h3 rfl rfl]

theorem countP_validate_dup_pred (df : DataFrame) (cfg : Config) (p : Issue → Bool)
    (hp : ∀ iss, p iss = true →
      iss.issue = duplicateKeyKind ∨ iss.issue = duplicateRowKind) :
    (validate_dataframe df cfg).1.countP p =
      (duplicateIssues df cfg.unique_key_cols).countP p := by
  rw [validate_dataframe]
  simp only [List.countP_append]
  rw [countP_zero_of_dup_pred requiredIssues_no_dupkind hp,
      countP_zero_of_dup_pred typeIssues_no_dupkind hp,
      countP_zero_of_dup_pred rangeIssues_no_dupkind hp,
      countP_zero_of_dup_pred allowedIssues_no_dupkind hp,
      countP_zero_of_dup_pred emailIssues_no_dupkind hp]
  omega

def dfC3cex : DataFrame := ⟨["a"], [[.sc (.i 1)], [.sc (.i 1)]]⟩

def cfgC3cex : Config := ⟨[], [], [], [], some ["k"], none⟩

/-- C3 counterexample: with `unique_key_cols = ["k"]` where "k" is absent
from the dataset, row 0 lies in an equality-partition of size 2 over the
present key columns (there are none, so all rows agree), yet the run emits
ZERO duplicate-key issues for it: the claim "every row in a partition of
size ≥ 2 over the present key columns yields exactly one duplicate issue"
fails when no listed key column is present. -/
theorem keyed_mode_no_present_keys_unflagged :
    2 ≤ eqGroupSize dfC3cex (["k"].filter dfC3cex.hasCol) 0 ∧
    (validate_dataframe dfC3cex cfgC3cex).1.countP (isDupKeyIssueAt 0) = 0 := by decide

/-- C3 amended: provided at least one listed key column is present in keyed
mode, every row of the dataset gets exactly one duplicate-key issue if its
equality-partition over the present key columns has size ≥ 2 and none if
the partition is a singleton; in whole-row mode (no keys supplied, or an
empty key list) the same holds for duplicate-row issues with the partition
taken over all columns. Counts range over the whole output. -/
theorem dup_group_flag_count (df : DataFrame) (cfg : Config) (i : Nat)
    (hi : i < df.nrows) :
    (∀ ks, cfg.unique_key_cols = some ks → ks.filter df.hasCol ≠ [] →
      (validate_dataframe df cfg).1.countP (isDupKeyIssueAt i) =
        if 2 ≤ eqGroupSize df (ks.filter df.hasCol) i then 1 else 0) ∧
    ((cfg.unique_key_cols = none ∨ cfg.unique_key_cols = some []) →
      (validate_dataframe df cfg).1.countP (isDupRowIssueAt i) =
        if 2 ≤ eqGroupSize df df.columns i then 1 else 0) := by
  constructor
  · intro ks hks hkc
    have hp : ∀ iss : Issue, isDupKeyIssueAt i iss = true →
        iss.issue = duplicateKeyKind ∨ iss.issue = duplicateRowKind := by
      intro iss h
      rw [isDupKeyIssueAt, decide_eq_true_eq] at h
      exact Or.inl h.1
    rw [countP_validate_dup_pred df cfg _ hp, hks]
    exact dupSection_keyed_count df ks i hi hkc
  · intro hmode
    have hp : ∀ iss : Issue, isDupRowIssueAt i iss = true →
        iss.issue = duplicateKeyKind ∨ iss.issue = duplicateRowKind := by
      intro iss h
      rw [isDupRowIssueAt, decide_eq_true_eq] at h
      exact Or.inr h.1
    rw [countP_validate_dup_pred df cfg _ hp]
    have hwr : duplicateIssues df cfg.unique_key_cols = wholeRowDupIssues df := by
      rcases hmode with h | h <;> rw [h] <;> rfl
    rw [hwr]
    exact dupSection_wholerow_count df i hi

def dfC3w : DataFrame := ⟨["id"], [[.sc (.i 1)], [.sc (.i 1)], [.sc (.i 2)]]⟩

def cfgC3w : Config := ⟨[], [], [], [], some ["id"], none⟩

/-- C3 witness: the amended theorem at a concrete keyed run: the two rows
with key 1 get exactly one duplicate-key issue each, the singleton key 2
gets none. -/
theorem dup_group_flag_count_witness :
    0 < dfC3w.nrows ∧
    (validate_dataframe dfC3w cfgC3w).1.countP (isDupKeyIssueAt 0) = 1 ∧
    (validate_dataframe dfC3w cfgC3w).1.countP (isDupKeyIssueAt 2) = 0 := by
  refine ⟨by decide, ?_, ?_⟩
  · exact ((dup_group_flag_count dfC3w cfgC3w 0 (by decide)).1 ["id"] rfl
      (by decide)).trans (by decide)
  · exact ((dup_group_flag_count dfC3w cfgC3w 2 (by decide)).1 ["id"] rfl
      (by decide)).trans (by decide)

/-- C10: when a non-empty key list is supplied and none of the listed
columns exists, the duplicate section is exactly one dataset-level
missing-key-column issue per listed column, and the whole run emits no
duplicate-key and no duplicate-row issue at all (the whole-row fallback is
not used). -/
theorem all_keys_absent_no_dup_detection (df : DataFrame) (cfg : Config)
    (ks : List String)
    (hk : cfg.unique_key_cols = some ks) (hne : ks ≠ [])
    (habs : ∀ c ∈ ks, df.hasCol c = false) :
    duplicateIssues df cfg.unique_key_cols =
      ks.map (fun c => ⟨none, some c, missingKeyColumnKind, .nullV⟩) ∧
    (validate_dataframe df cfg).1.countP isDupKindIssue = 0 := by
  have hisE : ks.isEmpty = false := by
    cases ks with
    | nil => exact absurd rfl hne
    | cons a l => rfl
  have hfilterNil : ks.filter df.hasCol = [] :=
    List.filter_eq_nil_iff.mpr fun a ha => by rw [habs a ha]; decide
  have hfilterAll : ks.filter (fun c => !df.hasCol c) = ks :=
    List.filter_eq_self.mpr fun a ha => by rw [habs a ha]; rfl
  have hsec : duplicateIssues df (some ks) =
      ks.map (fun c => ⟨none, some c, missingKeyColumnKind, .nullV⟩) := by
    rw [duplicateIssues, if_neg (by simp [hisE])]
    rw [hfilterNil, hfilterAll]
    simp
  refine ⟨by rw [hk]; exact hsec, ?_⟩
  have hp : ∀ iss : Issue, isDupKindIssue iss = true →
      iss.issue = duplicateKeyKind ∨ iss.issue = duplicateRowKind := by
    intro iss h
    rw [isDupKindIssue, decide_eq_true_eq] at h
    exact h
  rw [countP_validate_dup_pred df cfg _ hp, hk, hsec, List.countP_eq_zero]
  intro a ha
  obtain ⟨c, _, rfl⟩ := List.mem_map.mp ha
  simp [isDupKindIssue, missingKeyColumnKind, duplicateKeyKind, duplicateRowKind]

def dfC10w : DataFrame := ⟨["a"], [[.sc (.i 1)], [.sc (.i 1)]]⟩

def cfgC10w : Config := ⟨[], [], [], [], some ["k1", "k2"], none⟩

/-- C10 witness: keys "k1","k2" are both absent; even though the two rows
are identical, the run emits only the two missing-key-column issues and no
duplicate issue of either kind. -/
theorem all_keys_absent_no_dup_detection_witness :
    duplicateIssues dfC10w cfgC10w.unique_key_cols =
      (["k1", "k2"].map fun c => (⟨none, some c, missingKeyColumnKind, .nullV⟩ : Issue)) ∧
    (validate_dataframe dfC10w cfgC10w).1.countP isDupKindIssue = 0 :=
  all_keys_absent_no_dup_detection dfC10w cfgC10w ["k1", "k2"] rfl (by decide) (by decide)

theorem comma_mem_commaJoin (a b : String) (l : List String) :
    ',' ∈ (commaJoin (a :: b :: l)).data := by
  have he : commaJoin (a :: b :: l) = a ++ "," ++ commaJoin (b :: l) := rfl
  rw [he, String.data_append, String.data_append]
  exact List.mem_append_left _ (List.mem_append_right _ (by decide))

def dfC7cex : DataFrame := ⟨["a", "b"], [[.sc (.i 1), .sc (.i 2)], [.sc (.i 1), .sc (.i 2)]]⟩

def cfgC7cex : Config := ⟨[], [], [], [], some ["a", "b"], none⟩

/-- C7 counterexample: the dataset has no column named "a,b", yet with key
columns ["a", "b"] the duplicate-key issues carry `column = "a,b"` (the
comma-join of the key names) and a row index, so a ROW-LEVEL issue does
mention an absent column name. -/
theorem absent_column_rowlevel_issue_exists :
    dfC7cex.hasCol "a,b" = false ∧
    ∃ iss ∈ (validate_dataframe dfC7cex cfgC7cex).1,
      iss.column = some "a,b" ∧ iss.row_index ≠ none := by decide

/-- C7 amended: for a column name absent from the dataset and not itself
containing a comma (so it cannot collide with the comma-joined key-column
label of a duplicate-key issue), every output issue naming that column is
dataset-level: its row index is `None` and its kind is missing-required-
column or missing-key-column. -/
theorem absent_column_issues_dataset_level (df : DataFrame) (cfg : Config) (c : String)
    (habs : df.hasCol c = false) (hcomma : ',' ∉ c.data) :
    ∀ iss ∈ (validate_dataframe df cfg).1, iss.column = some c →
      iss.row_index = none ∧
      (iss.issue = missingRequiredColumnKind ∨ iss.issue = missingKeyColumnKind) := by
  intro iss hmem hcol
  rw [validate_dataframe] at hmem
  simp only [List.mem_append] at hmem
  rcases hmem with ((((hm | hm) | hm) | hm) | hm) | hm
  · rw [requiredIssues, List.mem_append] at hm
    rcases hm with hm | hm
    · obtain ⟨c', _, rfl⟩ := List.mem_map.mp hm
      exact ⟨rfl, Or.inl rfl⟩
    · obtain ⟨c', hc', hmm⟩ := List.mem_flatMap.mp hm
      obtain ⟨i, _, rfl⟩ := List.mem_map.mp hmm
      have hpc : df.hasCol c' = true := (List.mem_filter.mp hc').2
      simp only [Option.some.injEq] at hcol
      rw [hcol] at hpc
      rw [habs] at hpc
      cases hpc
  · cases huk : cfg.unique_key_cols with
    | none =>
      rw [huk] at hm
      have hwr : duplicateIssues df none = wholeRowDupIssues df := rfl
      rw [hwr] at hm
      obtain ⟨i, _, rfl⟩ := List.mem_map.mp hm
      simp at hcol
    | some ks =>
      rw [huk, duplicateIssues] at hm
      by_cases hke : ks.isEmpty
      · rw [if_pos hke] at hm
        obtain ⟨i, _, rfl⟩ := List.mem_map.mp hm
        simp at hcol
      · rw [if_neg hke, List.mem_append] at hm
        rcases hm with hm | hm
        · obtain ⟨c', _, rfl⟩ := List.mem_map.mp hm
          exact ⟨rfl, Or.inr rfl⟩
        · by_cases hkc : (ks.filter df.hasCol).isEmpty
          · rw [if_pos hkc] at hm
            cases hm
          · rw [if_neg hkc] at hm
            obtain ⟨i, _, rfl⟩ := List.mem_map.mp hm
            exfalso
            simp only [Option.some.injEq] at hcol
            cases hkl : ks.filter df.hasCol with
            | nil => rw [hkl] at hkc; exact hkc rfl
            | cons k tail =>
              cases tail with
              | nil =>
                rw [hkl] at hcol
                have hk1 : k ∈ ks.filter df.hasCol := by
                  rw [hkl]; exact List.mem_singleton_self k
                have hk2 : df.hasCol k = true := (List.mem_filter.mp hk1).2
                have hkc' : commaJoin [k] = c := hcol
                rw [commaJoin] at hkc'
                rw [hkc'] at hk2
                rw [habs] at hk2
                cases hk2
              | cons k2 rest =>
                rw [hkl] at hcol
                have hmem2 := comma_mem_commaJoin k k2 rest
                rw [hcol] at hmem2
                exact hcomma hmem2
  · obtain ⟨p, _, hpc, hcolumn, _⟩ := typeIssues_shape iss hm
    rw [hcolumn, Option.some.injEq] at hcol
    rw [hcol] at hpc
    rw [habs] at hpc
    cases hpc
  · obtain ⟨p, _, hpc, hcolumn, _, _⟩ := rangeIssues_shape iss hm
    rw [hcolumn, Option.some.injEq] at hcol
    rw [hcol] at hpc
    rw [habs] at hpc
    cases hpc
  · obtain ⟨p, _, hpc, hcolumn, _⟩ := allowedIssues_shape iss hm
    rw [hcolumn, Option.some.injEq] at hcol
    rw [hcol] at hpc
    rw [habs] at hpc
    cases hpc
  · obtain ⟨col, hpc, hcolumn, _⟩ := emailIssues_shape iss hm
    rw [hcolumn, Option.some.injEq] at hcol
    rw [hcol] at hpc
    rw [habs] at hpc
    cases hpc

def dfC7w : DataFrame := ⟨["a"], [[.missing], [.sc (.i 1)]]⟩

def cfgC7w : Config :=
  ⟨["zz", "a"], [("zz", "int")], [("zz", (some 0, none))], [("zz", [.sc (.i 1)])],
   some ["zz"], some ["zz"]⟩

/-- C7 witness: the amended theorem at a run whose configuration mentions
the absent comma-free column "zz" in every rule; the issues naming "zz" are
checked to be dataset-level for one concrete output issue. -/
theorem absent_column_issues_dataset_level_witness :
    dfC7w.hasCol "zz" = false ∧
    (⟨none, some "zz", missingRequiredColumnKind, .nullV⟩ : Issue) ∈
      (validate_dataframe dfC7w cfgC7w).1 ∧
    ((⟨none, some "zz", missingRequiredColumnKind, .nullV⟩ : Issue).row_index = none ∧
     ((⟨none, some "zz", missingRequiredColumnKind, .nullV⟩ : Issue).issue =
        missingRequiredColumnKind ∨
      (⟨none, some "zz", missingRequiredColumnKind, .nullV⟩ : Issue).issue =
        missingKeyColumnKind)) :=
  ⟨by decide, by decide,
   absent_column_issues_dataset_level dfC7w cfgC7w "zz" (by decide) (by decide)
     ⟨none, some "zz", missingRequiredColumnKind, .nullV⟩ (by decide) rfl⟩

theorem kindStart_tm_unknownType (t : String) :
    hasKindStart typeMismatchStart (unknownTypeKind t) = false := rfl

theorem kindStart_tm_belowMin (m : Rat) :
    hasKindStart typeMismatchStart (belowMinKind m) = false := rfl

theorem kindStart_tm_aboveMax (m : Rat) :
    hasKindStart typeMismatchStart (aboveMaxKind m) = false := rfl

theorem kindStart_tm_notAllowed (a : List Value) :
    hasKindStart typeMismatchStart (notAllowedKind a) = false := rfl

def isUnknownTypeIssue (col t : String) (iss : Issue) : Bool :=
  decide (iss = ⟨none, some col, unknownTypeKind t, .nullV⟩)

def isTypeMismatchAt (col : String) (iss : Issue) : Bool :=
  iss.column == some col && hasKindStart typeMismatchStart iss.issue

theorem typeIssuesFor_unknown (df : DataFrame) (col t : String)
    (hcol : df.hasCol col = true)
    (h1 : t ≠ "int") (h2 : t ≠ "float") (h3 : t ≠ "datetime") (h4 : t ≠ "string") :
    typeIssuesFor df col t = [⟨none, some col, unknownTypeKind t, .nullV⟩] := by
  rw [typeIssuesFor, if_neg (by simp [hcol]), if_neg (fun h => h.elim h1 h2),
    if_neg h3, if_neg h4]

theorem countP_unknown_zero_of_kinds {col t : String} {l : List Issue}
    (h : ∀ iss ∈ l, iss.issue ≠ unknownTypeKind t) :
    l.countP (isUnknownTypeIssue col t) = 0 := by
  rw [List.countP_eq_zero]
  intro a ha hpa
  rw [isUnknownTypeIssue, decide_eq_true_eq] at hpa
  exact h a ha (by rw [hpa])

theorem countP_mismatchAt_zero_of_start {col : String} {l : List Issue}
    (h : ∀ iss ∈ l, hasKindStart typeMismatchStart iss.issue = false) :
    l.countP (isTypeMismatchAt col) = 0 := by
  rw [List.countP_eq_zero]
  intro a ha hpa
  rw [isTypeMismatchAt, h a ha, Bool.and_false] at hpa
  cases hpa

theorem countP_mismatchAt_zero_of_col {col : String} {l : List Issue}
    (h : ∀ iss ∈ l, iss.column ≠ some col) :
    l.countP (isTypeMismatchAt col) = 0 := by
  rw [List.countP_eq_zero]
  intro a ha hpa
  rw [isTypeMismatchAt, Bool.and_eq_true, beq_iff_eq] at hpa
  exact h a ha hpa.1

theorem countP_typeIssues_unknown_zero_col {df : DataFrame} {col t : String}
    {et : List (String × String)} (hout : col ∉ et.map Prod.fst) :
    (typeIssues df et).countP (isUnknownTypeIssue col t) = 0 := by
  rw [List.countP_eq_zero]
  intro a ha hpa
  rw [isUnknownTypeIssue, decide_eq_true_eq] at hpa
  obtain ⟨p, hp, _, hcolumn, _⟩ := typeIssues_shape a ha
  rw [hpa] at hcolumn
  simp only [Option.some.injEq] at hcolumn
  exact hout (hcolumn ▸ List.mem_map.mpr ⟨p, hp, rfl⟩)

theorem countP_typeIssues_mismatch_zero_col {df : DataFrame} {col : String}
    {et : List (String × String)} (hout : col ∉ et.map Prod.fst) :
    (typeIssues df et).countP (isTypeMismatchAt col) = 0 := by
  apply countP_mismatchAt_zero_of_col
  intro a ha hc
  obtain ⟨p, hp, _, hcolumn, _⟩ := typeIssues_shape a ha
  rw [hcolumn] at hc
  simp only [Option.some.injEq] at hc
  exact hout (hc ▸ List.mem_map.mpr ⟨p, hp, rfl⟩)

theorem countP_typeIssues_unknown_one (df : DataFrame) (col t : String)
    (hcol : df.hasCol col = true)
    (h1 : t ≠ "int") (h2 : t ≠ "float") (h3 : t ≠ "datetime") (h4 : t ≠ "string") :
    ∀ et : List (String × String), (col, t) ∈ et → (et.map Prod.fst).Nodup →
      (typeIssues df et).countP (isUnknownTypeIssue col t) = 1 := by
  intro et
  induction et with
  | nil => intro h; cases h
  | cons p rest ih =>
    intro hmem hnd
    rw [List.map_cons, List.nodup_cons] at hnd
    have hsplit : typeIssues df (p :: rest) =
        typeIssuesFor df p.1 p.2 ++ typeIssues df rest := by
      rw [typeIssues, List.flatMap_cons]; rfl
    rw [hsplit, List.countP_append]
    rcases List.mem_cons.mp hmem with hp | hp
    · have hp1 : p.1 = col := by rw [← hp]
      have hp2 : p.2 = t := by rw [← hp]
      rw [hp1, hp2, typeIssuesFor_unknown df col t hcol h1 h2 h3 h4]
      have hz : (typeIssues df rest).countP (isUnknownTypeIssue col t) = 0 :=
        countP_typeIssues_unknown_zero_col (by rw [← hp1]; exact hnd.1)
      rw [hz]
      simp [isUnknownTypeIssue]
    · have hcolmem : col ∈ rest.map Prod.fst := List.mem_map.mpr ⟨(col, t), hp, rfl⟩
      have hne : p.1 ≠ col := fun h => hnd.1 (h ▸ hcolmem)
      have hz : (typeIssuesFor df p.1 p.2).countP (isUnknownTypeIssue col t) = 0 := by
        rw [List.countP_eq_zero]
        intro a ha hpa
        rw [isUnknownTypeIssue, decide_eq_true_eq] at hpa
        obtain ⟨_, hcolumn, _⟩ := typeIssuesFor_shape a ha
        rw [hpa] at hcolumn
        simp only [Option.some.injEq] at hcolumn
        exact hne hcolumn.symm
      rw [hz, ih hp hnd.2]

theorem countP_typeIssues_mismatch_zero (df : DataFrame) (col t : String)
    (hcol : df.hasCol col = true)
    (h1 : t ≠ "int") (h2 : t ≠ "float") (h3 : t ≠ "datetime") (h4 : t ≠ "string") :
    ∀ et : List (String × String), (col, t) ∈ et → (et.map Prod.fst).Nodup →
      (typeIssues df et).countP (isTypeMismatchAt col) = 0 := by
  intro et
  induction et with
  | nil => intro h; cases h
  | cons p rest ih =>
    intro hmem hnd
    rw [List.map_cons, List.nodup_cons] at hnd
    have hsplit : typeIssues df (p :: rest) =
        typeIssuesFor df p.1 p.2 ++ typeIssues df rest := by
      rw [typeIssues, List.flatMap_cons]; rfl
    rw [hsplit, List.countP_append]
    rcases List.mem_cons.mp hmem with hp | hp
    · have hp1 : p.1 = col := by rw [← hp]
      have hp2 : p.2 = t := by rw [← hp]
      rw [hp1, hp2, typeIssuesFor_unknown df col t hcol h1 h2 h3 h4]
      have hz : (typeIssues df rest).countP (isTypeMismatchAt col) = 0 :=
        countP_typeIssues_mismatch_zero_col (by rw [← hp1]; exact hnd.1)
      rw [hz]
      simp [isTypeMismatchAt, kindStart_tm_unknownType]
    · have hcolmem : col ∈ rest.map Prod.fst := List.mem_map.mpr ⟨(col, t), hp, rfl⟩
      have hne : p.1 ≠ col := fun h => hnd.1 (h ▸ hcolmem)
      have hz : (typeIssuesFor df p.1 p.2).countP (isTypeMismatchAt col) = 0 := by
        apply countP_mismatchAt_zero_of_col
        intro a ha hc
        obtain ⟨_, hcolumn, _⟩ := typeIssuesFor_shape a ha
        rw [hcolumn] at hc
        simp only [Option.some.injEq] at hc
        exact hne hc
      rw [hz, ih hp hnd.2]

/-- C8: for an `expected_types` entry `(col, t)` whose type token is none
of int/float/datetime/string, with `col` present in the dataset (and dict
keys unique, as in a Python dict): the output contains exactly one
dataset-level unknown-expected-type issue naming that column and token,
contains no row-level type-mismatch issue for that column, and is the
concatenation of all six evaluator sections, the other five of which do
not read `expected_types` at all (validation continues; nothing raises). -/
theorem unknown_type_one_issue (df : DataFrame) (cfg : Config) (col t : String)
    (hnd : (cfg.expected_types.map Prod.fst).Nodup)
    (hmem : (col, t) ∈ cfg.expected_types)
    (h1 : t ≠ "int") (h2 : t ≠ "float") (h3 : t ≠ "datetime") (h4 : t ≠ "string")
    (hcol : df.hasCol col = true) :
    (validate_dataframe df cfg).1.countP (isUnknownTypeIssue col t) = 1 ∧
    (validate_dataframe df cfg).1.countP (isTypeMismatchAt col) = 0 ∧
    (validate_dataframe df cfg).1 =
      requiredIssues df cfg.required_cols ++ duplicateIssues df cfg.unique_key_cols ++
      typeIssues df cfg.expected_types ++ rangeIssues df cfg.ranges ++
      allowedIssues df cfg.allowed_values ++ emailIssues df cfg.email_cols := by
  refine ⟨?_, ?_, rfl⟩
  · have hreq : (requiredIssues df cfg.required_cols).countP (isUnknownTypeIssue col t) = 0 :=
      countP_unknown_zero_of_kinds (fun iss h => by
        rcases requiredIssues_kinds iss h with hk | hk <;> rw [hk] <;>
          exact ne_of_head_char rfl (head_unknownTypeKind t) (by decide))
    have hdup : (duplicateIssues df cfg.unique_key_cols).countP (isUnknownTypeIssue col t) = 0 :=
      countP_unknown_zero_of_kinds (fun iss h => by
        rcases duplicateIssues_kinds iss h with hk | hk | hk <;> rw [hk] <;>
          exact ne_of_head_char rfl (head_unknownTypeKind t) (by decide))
    have hran : (rangeIssues df cfg.ranges).countP (isUnknownTypeIssue col t) = 0 :=
      countP_unknown_zero_of_kinds (fun iss h => by
        obtain ⟨p, _, _, _, _, hk⟩ := rangeIssues_shape iss h
        rcases hk with ⟨m, hk⟩ | ⟨m, hk⟩ <;> rw [hk]
        · exact ne_of_head_char (head_belowMinKind m) (head_unknownTypeKind t) (by decide)
        · exact ne_of_head_char (head_aboveMaxKind m) (head_unknownTypeKind t) (by decide))
    have hall : (allowedIssues df cfg.allowed_values).countP (isUnknownTypeIssue col t) = 0 :=
      countP_unknown_zero_of_kinds (fun iss h => by
        obtain ⟨p, _, _, _, hk⟩ := allowedIssues_shape iss h
        rw [hk]
        exact ne_of_head_char (head_notAllowedKind p.2) (head_unknownTypeKind t) (by decide))
    have hema : (emailIssues df cfg.email_cols).countP (isUnknownTypeIssue col t) = 0 :=
      countP_unknown_zero_of_kinds (fun iss h => by
        obtain ⟨c, _, _, hk⟩ := emailIssues_shape iss h
        rw [hk]
        exact ne_of_head_char rfl (head_unknownTypeKind t) (by decide))
    have hty : (typeIssues df cfg.expected_types).countP (isUnknownTypeIssue col t) = 1 :=
      countP_typeIssues_unknown_one df col t hcol h1 h2 h3 h4 cfg.expected_types hmem hnd
    rw [validate_dataframe]
    simp only [List.countP_append]
    rw [hreq, hdup, hran, hall, hema, hty]
  · have hreq : (requiredIssues df cfg.required_cols).countP (isTypeMismatchAt col) = 0 :=
      countP_mismatchAt_zero_of_start (fun iss h => by
        rcases requiredIssues_kinds iss h with hk | hk <;> rw [hk] <;> decide)
    have hdup : (duplicateIssues df cfg.unique_key_cols).countP (isTypeMismatchAt col) = 0 :=
      countP_mismatchAt_zero_of_start (fun iss h => by
        rcases duplicateIssues_kinds iss h with hk | hk | hk <;> rw [hk] <;> decide)
    have hran : (rangeIssues df cfg.ranges).countP (isTypeMismatchAt col) = 0 :=
      countP_mismatchAt_zero_of_start (fun iss h => by
        obtain ⟨p, _, _, _, _, hk⟩ := rangeIssues_shape iss h
        rcases hk with ⟨m, hk⟩ | ⟨m, hk⟩ <;> rw [hk]
        · exact kindStart_tm_belowMin m
        · exact kindStart_tm_aboveMax m)
    have hall : (allowedIssues df cfg.allowed_values).countP (isTypeMismatchAt col) = 0 :=
      countP_mismatchAt_zero_of_start (fun iss h => by
        obtain ⟨p, _, _, _, hk⟩ := allowedIssues_shape iss h
        rw [hk]
        exact kindStart_tm_notAllowed p.2)
    have hema : (emailIssues df cfg.email_cols).countP (isTypeMismatchAt col) = 0 :=
      countP_mismatchAt_zero_of_start (fun iss h => by
        obtain ⟨c, _, _, hk⟩ := emailIssues_shape iss h
        rw [hk]
        decide)
    have hty : (typeIssues df cfg.expected_types).countP (isTypeMismatchAt col) = 0 :=
      countP_typeIssues_mismatch_zero df col t hcol h1 h2 h3 h4 cfg.expected_types hmem hnd
    rw [validate_dataframe]
    simp only [List.countP_append]
    rw [hreq, hdup, hran, hall, hema, hty]

def dfC8w : DataFrame := ⟨["age", "id"], [[.sc (.s "abc"), .sc (.i 1)], [.sc (.i 3), .sc (.i 1)]]⟩

def cfgC8w : Config :=
  ⟨["age"], [("age", "integer"), ("id", "int")], [("age", (some 0, none))], [],
   some ["id"], none⟩

/-- C8 witness: the theorem at a run where "age" expects the unknown token
"integer"; the run still reports the duplicate keys and range data of the
other rules. -/
theorem unknown_type_one_issue_witness :
    (cfgC8w.expected_types.map Prod.fst).Nodup ∧
    ("age", "integer") ∈ cfgC8w.expected_types ∧
    dfC8w.hasCol "age" = true ∧
    ((validate_dataframe dfC8w cfgC8w).1.countP (isUnknownTypeIssue "age" "integer") = 1 ∧
     (validate_dataframe dfC8w cfgC8w).1.countP (isTypeMismatchAt "age") = 0 ∧
     (validate_dataframe dfC8w cfgC8w).1 =
       requiredIssues dfC8w cfgC8w.required_cols ++
       duplicateIssues dfC8w cfgC8w.unique_key_cols ++
       typeIssues dfC8w cfgC8w.expected_types ++ rangeIssues dfC8w cfgC8w.ranges ++
       allowedIssues dfC8w cfgC8w.allowed_values ++ emailIssues dfC8w cfgC8w.email_cols) :=
  ⟨by decide, by decide, by decide,
   unknown_type_one_issue dfC8w cfgC8w "age" "integer" (by decide) (by decide)
     (by decide) (by decide) (by decide) (by decide) (by decide)⟩
